import Mathlib

/-!
Verification of the Schnorr zero-knowledge identification demo.

Shallow embedding of `src/main.rs`: the protocol works over arbitrary-precision
unsigned integers (`BigUint`), embedded here as `Nat`.  Modular exponentiation
`b.modpow(e, m)` is `b ^ e % m`; the SHA-256 hash inside `Verifier::step2` is
embedded as an abstract function `H : List Nat → Nat` from byte strings to
naturals, since only its determinism and the byte-level encoding of its input
matter for the claims; the `thread_rng` sample inside `Prover::step1` is
embedded as an explicit argument `r`.
-/

/-- Modular exponentiation, the semantics of `BigUint::modpow(e, m)`. -/
def modpow (b e m : Nat) : Nat := b ^ e % m

/-- The public parameters `(p, q, g)` of `struct PublicParams`. -/
structure PublicParams where
  p : Nat
  q : Nat
  g : Nat
deriving DecidableEq, Repr

/-- Embedding of `PublicParams::new`: the hardcoded demonstration parameters
`q = 11`, `p = 23`, `g = 4` (the `println!` narration is I/O only). -/
def PublicParams.new : PublicParams :=
  let q := 11
  let p := 23
  let g := 4
  { p := p, q := q, g := g }

/-- The prover state of `struct Prover`: parameters, secret `x`, public `y`. -/
structure Prover where
  params : PublicParams
  x : Nat
  y : Nat
deriving DecidableEq, Repr

/-- Embedding of `Prover::new`: reduces the secret mod `q` and computes
`y = g^x mod p`. -/
def Prover.new (params : PublicParams) (secret : Nat) : Prover :=
  let x := secret % params.q
  let y := modpow params.g x params.p
  { params := params, x := x, y := y }

/-- Embedding of `Prover::step1` with the value `r` drawn from
`rng.gen_biguint_below(&q)` passed explicitly: returns `(r, t)` with
`t = g^r mod p`. -/
def Prover.step1 (pr : Prover) (r : Nat) : Nat × Nat :=
  let t := modpow pr.params.g r pr.params.p
  (r, t)

/-- Embedding of `Prover::step3`: the response `s = (r + c*x) mod q`. -/
def Prover.step3 (pr : Prover) (r c : Nat) : Nat :=
  (r + c * pr.x) % pr.params.q

/-- The verifier state of `struct Verifier`. -/
structure Verifier where
  params : PublicParams
deriving DecidableEq, Repr

/-- Embedding of `Verifier::new`. -/
def Verifier.new (params : PublicParams) : Verifier :=
  { params := params }

/-- Minimal-length big-endian base-256 digits of `n` (empty for `n = 0`),
computed with structural fuel so that concrete values reduce in the kernel. -/
def beDigitsAux : Nat → Nat → List Nat
  | 0, _ => []
  | fuel + 1, n => if n = 0 then [] else beDigitsAux fuel (n / 256) ++ [n % 256]

/-- Embedding of `BigUint::to_bytes_be`: the minimal big-endian byte string of
`n`, with `[0]` for zero (as `num-bigint` returns).  There is no fixed width,
no length prefix and no domain-separation tag. -/
def toBytesBE (n : Nat) : List Nat :=
  if n = 0 then [0] else beDigitsAux n n

/-- The exact byte string `Verifier::step2` feeds to SHA-256: the plain
concatenation `t.to_bytes_be() || y.to_bytes_be()` of the two updates. -/
def hashInput (t y : Nat) : List Nat :=
  toBytesBE t ++ toBytesBE y

/-- Embedding of `Verifier::step2` with SHA-256 abstracted as `H`: the
challenge `c = H(t_bytes || y_bytes) mod q`, the full hash value reduced. -/
def Verifier.step2 (v : Verifier) (H : List Nat → Nat) (t y : Nat) : Nat :=
  H (hashInput t y) % v.params.q

/-- Embedding of `Verifier::verify`: `g^s mod p == (t * y^c mod p) mod p`,
an unconditional boolean with no range check on `c` or `s`. -/
def Verifier.verify (v : Verifier) (t c s y : Nat) : Bool :=
  let left := modpow v.params.g s v.params.p
  let right := (t * modpow y c v.params.p) % v.params.p
  left == right

/-- The demonstration parameters used by `main`, via `PublicParams::new`. -/
def demoParams : PublicParams := PublicParams.new

/-- The verifier `main` constructs. -/
def demoVerifier : Verifier := Verifier.new demoParams

/-- C1: completeness at the program's parameters: for every secret
`0 < x < 11`, every `r < 11`, commitment `t = 4^r mod 23`, every challenge
`c < 11` and response `s = (r + c*x) mod 11`, `Verifier::verify` accepts
against the public key `y = 4^x mod 23`. -/
theorem completeness_demo :
    ∀ x < 11, 0 < x → ∀ r < 11, ∀ c < 11,
      demoVerifier.verify ((Prover.new demoParams x).step1 r).2 c
        ((Prover.new demoParams x).step3 r c) (Prover.new demoParams x).y = true := by
  decide

/-- Witness for C1: the honest transcript with `x = 6`, `r = 3`, `c = 5`
verifies. -/
theorem completeness_demo_witness :
    demoVerifier.verify ((Prover.new demoParams 6).step1 3).2 5
      ((Prover.new demoParams 6).step3 3 5) (Prover.new demoParams 6).y = true :=
  completeness_demo 6 (by decide) (by decide) 3 (by decide) 5 (by decide)

/-- Unfolding of `Verifier::verify` at the demonstration parameters. -/
lemma verify_def (t c s y : Nat) :
    demoVerifier.verify t c s y = (4 ^ s % 23 == (t * (y ^ c % 23)) % 23) := rfl

/-- Unfolding of `Prover::step3` at the demonstration parameters. -/
lemma step3_def (x r c : Nat) :
    (Prover.new demoParams x).step3 r c = (r + c * (x % 11)) % 11 := rfl

/-- Powers of `4` cycle mod `23` with period dividing `11`: `4^11 mod 23 = 1`. -/
lemma four_pow_eleven : (4 : Nat) ^ 11 % 23 = 1 := by decide

/-- Every public key `y = 4^x mod 23` lies in the order-11 subgroup:
`y^11 mod 23 = 1`. -/
lemma pubkey_pow_eleven (x : Nat) : (modpow 4 x 23) ^ 11 % 23 = 1 := by
  show ((4 : Nat) ^ x % 23) ^ 11 % 23 = 1
  rw [← Nat.pow_mod, ← pow_mul, mul_comm, pow_mul, Nat.pow_mod, four_pow_eleven,
    one_pow]
  rfl

/-- Adding `11` to an exponent does not change the power mod `23` when the
base has order dividing `11`. -/
lemma pow_add_eleven (a n : Nat) (h : a ^ 11 % 23 = 1) :
    a ^ (n + 11) % 23 = a ^ n % 23 := by
  rw [pow_add, Nat.mul_mod, h, mul_one, Nat.mod_mod]

/-- Exponents reduce mod `11` under a base of order dividing `11` mod `23`. -/
lemma pow_mod_eleven (a n : Nat) (h : a ^ 11 % 23 = 1) :
    a ^ n % 23 = a ^ (n % 11) % 23 := by
  conv_lhs => rw [← Nat.div_add_mod n 11]
  rw [pow_add, Nat.mul_mod, pow_mul, Nat.pow_mod, h, one_pow]
  rw [show (1 : Nat) % 23 = 1 from rfl, one_mul, Nat.mod_mod]

/-- C8: `Verifier::verify` is invariant under adding `q = 11` to the challenge
or to the response, for any public key `y = 4^x mod 23` in the order-11
subgroup: out-of-range `c` and `s` are never rejected and behave exactly like
their residues mod `q`. -/
theorem verify_wrap_invariant :
    ∀ x t c s : Nat,
      demoVerifier.verify t (c + 11) s (modpow 4 x 23)
          = demoVerifier.verify t c s (modpow 4 x 23) ∧
      demoVerifier.verify t c (s + 11) (modpow 4 x 23)
          = demoVerifier.verify t c s (modpow 4 x 23) := by
  intro x t c s
  constructor
  · rw [verify_def, verify_def, pow_add_eleven _ c (pubkey_pow_eleven x)]
  · rw [verify_def, verify_def, pow_add_eleven 4 s four_pow_eleven]

/-- C2 counterexample: called with the out-of-range challenge `c = 11 ≥ q`,
`Verifier::verify` returns the ordinary boolean `true` (it even accepts the
honest wrapped transcript `t = 1`, `s = 0` for `y = 2`), and `Prover::step3`
returns the ordinary response `0 = (0 + 11*6) mod 11` — no
`ProtocolError::OutOfRange` is ever produced (the source has no error type at
all). -/
theorem outOfRange_counterexample :
    demoVerifier.verify 1 11 0 2 = true ∧
    (Prover.new demoParams 6).step3 0 11 = 0 := by
  decide

/-- C2 amended: `Verifier::verify` given `c ≥ q` or `s ≥ q`, and
`Prover::step3` given `c ≥ q`, never fail and never crash: they silently wrap
the out-of-range value, `step3` returning the in-range response
`(r + c·x) mod q` (equal to its value at `c mod q`) and `verify` returning the
ordinary boolean it would return at `c mod q` and `s mod q` (for a public key
in the order-`q` subgroup).  Stated for all `c` and `s`, which covers every
out-of-range case, one-sided or not. -/
theorem outOfRange_amended :
    ∀ x r c s t : Nat,
      (Prover.new demoParams x).step3 r c
          = (Prover.new demoParams x).step3 r (c % 11) ∧
      (Prover.new demoParams x).step3 r c < 11 ∧
      demoVerifier.verify t c s (modpow 4 x 23)
          = demoVerifier.verify t (c % 11) (s % 11) (modpow 4 x 23) := by
  intro x r c s t
  refine ⟨?_, ?_, ?_⟩
  · rw [step3_def, step3_def]
    exact Nat.ModEq.add_left r (Nat.ModEq.mul_right (x % 11) (Nat.mod_modEq c 11).symm)
  · rw [step3_def]
    exact Nat.mod_lt _ (by norm_num)
  · rw [verify_def, verify_def, pow_mod_eleven 4 s four_pow_eleven,
      pow_mod_eleven _ c (pubkey_pow_eleven x)]

/-- Witness for C2 amended: at `x = 6`, `r = 4`, the one-sided out-of-range
call `c = 13 ≥ 11` with in-range `s = 2`, `t = 9`. -/
theorem outOfRange_amended_witness :
    (Prover.new demoParams 6).step3 4 13 = (Prover.new demoParams 6).step3 4 (13 % 11) ∧
    (Prover.new demoParams 6).step3 4 13 < 11 ∧
    demoVerifier.verify 9 13 2 (modpow 4 6 23)
        = demoVerifier.verify 9 (13 % 11) (2 % 11) (modpow 4 6 23) :=
  outOfRange_amended 6 4 13 2 9

/-- C7: the end-to-end toy scenario of `main`: with `x = 6` the public key is
`y = 4^6 mod 23 = 2`; every honest transcript `(t = 4^r mod 23, c,
s = (r + c*6) mod 11)` with `r, c < 11` verifies against `y = 2`, while the
shifted challenge `(c+1) mod 11` makes the same `(t, s)` fail. -/
theorem end_to_end_demo :
    (Prover.new demoParams 6).y = 2 ∧
    ∀ r < 11, ∀ c < 11,
      demoVerifier.verify ((Prover.new demoParams 6).step1 r).2 c
          ((Prover.new demoParams 6).step3 r c) 2 = true ∧
      demoVerifier.verify ((Prover.new demoParams 6).step1 r).2 ((c + 1) % 11)
          ((Prover.new demoParams 6).step3 r c) 2 = false := by
  decide

/-- Witness for C7: the transcript at `r = 3`, `c = 4`. -/
theorem end_to_end_demo_witness :
    (Prover.new demoParams 6).y = 2 ∧
    demoVerifier.verify ((Prover.new demoParams 6).step1 3).2 4
        ((Prover.new demoParams 6).step3 3 4) 2 = true ∧
    demoVerifier.verify ((Prover.new demoParams 6).step1 3).2 ((4 + 1) % 11)
        ((Prover.new demoParams 6).step3 3 4) 2 = false :=
  ⟨end_to_end_demo.1, end_to_end_demo.2 3 (by decide) 4 (by decide)⟩

/-- C5: `Prover::new` silently normalizes the secret: it stores
`x = secret mod q` (so `0 ≤ x < q` whenever `q > 0`) and stores the public key
`y = g^x mod p`, computed from the already-reduced `x` at construction. -/
theorem prover_new_normalizes :
    ∀ (P : PublicParams) (secret : Nat), 0 < P.q →
      (Prover.new P secret).x = secret % P.q ∧
      (Prover.new P secret).x < P.q ∧
      (Prover.new P secret).y = modpow P.g ((Prover.new P secret).x) P.p :=
  fun _ _ hq => ⟨rfl, Nat.mod_lt _ hq, rfl⟩

/-- Witness for C5: the demonstration parameters with the out-of-range secret
`17`, stored as `17 mod 11 = 6`. -/
theorem prover_new_normalizes_witness :
    (Prover.new demoParams 17).x = 17 % demoParams.q ∧
    (Prover.new demoParams 17).x < demoParams.q ∧
    (Prover.new demoParams 17).y = modpow demoParams.g ((Prover.new demoParams 17).x) demoParams.p :=
  prover_new_normalizes demoParams 17 (by decide)

/-- C10: `Prover::new` accepts every secret, including `0` and every multiple
of `q = 11`, storing `x = 0` and `y = g^0 mod p = 1`; the transcripts such a
prover produces (`s = r mod q`) verify against `y = 1` for every challenge
`c < 11`. -/
theorem degenerate_secret :
    ∀ k : Nat,
      (Prover.new demoParams (11 * k)).x = 0 ∧
      (Prover.new demoParams (11 * k)).y = 1 ∧
      ∀ r < 11, ∀ c < 11,
        (Prover.new demoParams (11 * k)).step3 r c = r % 11 ∧
        demoVerifier.verify ((Prover.new demoParams (11 * k)).step1 r).2 c
            ((Prover.new demoParams (11 * k)).step3 r c) 1 = true := by
  have aux : ∀ r < 11, ∀ c < 11,
      demoVerifier.verify (modpow 4 r 23) c ((r + c * 0) % 11) 1 = true := by
    decide
  intro k
  refine ⟨Nat.mul_mod_right 11 k, ?_, ?_⟩
  · show modpow 4 (11 * k % 11) 23 = 1
    rw [Nat.mul_mod_right]
    decide
  · intro r hr c hc
    constructor
    · rw [step3_def, Nat.mul_mod_right, Nat.mul_zero, Nat.add_zero]
    · show demoVerifier.verify (modpow 4 r 23) c ((r + c * (11 * k % 11)) % 11) 1 = true
      rw [Nat.mul_mod_right]
      exact aux r hr c hc

/-- Witness for C10: `k = 3` (secret `33`), `r = 2`, `c = 7`. -/
theorem degenerate_secret_witness :
    (Prover.new demoParams (11 * 3)).x = 0 ∧
    (Prover.new demoParams (11 * 3)).y = 1 ∧
    (Prover.new demoParams (11 * 3)).step3 2 7 = 2 % 11 ∧
    demoVerifier.verify ((Prover.new demoParams (11 * 3)).step1 2).2 7
        ((Prover.new demoParams (11 * 3)).step3 2 7) 1 = true := by
  obtain ⟨h1, h2, h3⟩ := degenerate_secret 3
  exact ⟨h1, h2, (h3 2 (by decide) 7 (by decide)).1, (h3 2 (by decide) 7 (by decide)).2⟩

/-- C9: challenge derivation is deterministic: two verifiers with equal group
parameters return the same challenge on equal inputs `(t, y)` for the same
hash function, and the returned challenge is always `< q` whenever `q > 0` —
the embedded `step2` takes no randomness, so the challenge is a function of
the commitment and public key alone. -/
theorem step2_deterministic :
    (∀ (v1 v2 : Verifier) (H : List Nat → Nat) (t y : Nat),
        v1.params = v2.params → v1.step2 H t y = v2.step2 H t y) ∧
    (∀ (v : Verifier) (H : List Nat → Nat) (t y : Nat),
        0 < v.params.q → v.step2 H t y < v.params.q) := by
  constructor
  · intro v1 v2 H t y h
    unfold Verifier.step2
    rw [h]
  · intro v H t y hq
    exact Nat.mod_lt _ hq

/-- Witness for C9: the demonstration verifier against itself, with a concrete
hash function. -/
theorem step2_deterministic_witness :
    demoVerifier.step2 (fun l => l.length) 5 2 = demoVerifier.step2 (fun l => l.length) 5 2 ∧
    demoVerifier.step2 (fun l => l.length) 5 2 < demoVerifier.params.q :=
  ⟨step2_deterministic.1 demoVerifier demoVerifier (fun l => l.length) 5 2 rfl,
   step2_deterministic.2 demoVerifier (fun l => l.length) 5 2 (by decide)⟩

/-- C3 counterexample: the hash input `Verifier::step2` builds is the plain
concatenation of minimal-length big-endian encodings, with no fixed width, no
length prefix and no domain-separation tag, so distinct operand pairs collide:
`(t, y) = (1, 258)` encodes to `[1] ++ [1, 2]` and `(t, y) = (257, 2)` to
`[1, 1] ++ [2]`, the same byte string `[1, 1, 2]`. -/
theorem challenge_encoding_counterexample :
    hashInput 1 258 = hashInput 257 2 ∧
    ((1 : Nat), (258 : Nat)) ≠ ((257 : Nat), (2 : Nat)) := by
  decide

/-- C3 amended: `Verifier::step2` computes `c = H(t_bytes || y_bytes) mod q`
where the operands are minimal-length big-endian byte strings concatenated
without length prefix or domain tag — so any two operand pairs with equal
concatenations receive the identical challenge — and the full hash value is
reduced mod `q`, giving `0 ≤ c < q`. -/
theorem challenge_derivation_amended :
    (∀ (H : List Nat → Nat) (t y : Nat),
        demoVerifier.step2 H t y = H (toBytesBE t ++ toBytesBE y) % 11) ∧
    (∀ (H : List Nat → Nat) (t y : Nat), demoVerifier.step2 H t y < 11) ∧
    (∀ (H : List Nat → Nat) (t y t' y' : Nat),
        hashInput t y = hashInput t' y' →
          demoVerifier.step2 H t y = demoVerifier.step2 H t' y') := by
  refine ⟨fun H t y => rfl, fun H t y => Nat.mod_lt _ (by decide), ?_⟩
  intro H t y t' y' h
  unfold Verifier.step2
  rw [h]

/-- Witness for C3 amended: the colliding pairs `(1, 258)` and `(257, 2)` get
the same challenge under a concrete hash function, and the challenge is below
`q = 11`. -/
theorem challenge_derivation_amended_witness :
    demoVerifier.step2 (fun l => l.length) 1 258
        = demoVerifier.step2 (fun l => l.length) 257 2 ∧
    demoVerifier.step2 (fun l => l.length) 1 258 < 11 :=
  ⟨challenge_derivation_amended.2.2 (fun l => l.length) 1 258 257 2 (by decide),
   challenge_derivation_amended.2.1 (fun l => l.length) 1 258⟩

instance : Fact (Nat.Prime 11) := ⟨by norm_num⟩

/-- Modelled from the spec: the special-soundness extractor
`x = (s1 - s2) * inverse(c1 - c2) mod q` of §8 ("Soundness (heuristic test)"),
which is described by the spec but absent from `src/main.rs`; arithmetic is in
the field `ZMod 11` (`q = 11` is prime, so the inverse exists). -/
def extract (s1 s2 c1 c2 : Nat) : ZMod 11 :=
  ((s1 : ZMod 11) - (s2 : ZMod 11)) * ((c1 : ZMod 11) - (c2 : ZMod 11))⁻¹

/-- Casting a `Prover::step3` response into `ZMod 11` gives `r + c·x`. -/
lemma step3_cast (x r c : Nat) (hx : x < 11) :
    (((Prover.new demoParams x).step3 r c : Nat) : ZMod 11)
      = (r : ZMod 11) + (c : ZMod 11) * (x : ZMod 11) := by
  rw [step3_def, Nat.mod_eq_of_lt hx, ZMod.natCast_mod]
  push_cast
  ring

/-- C4: special soundness: for any secret `x < 11` and any fixed randomness
`r`, the responses `s1, s2` of `Prover::step3` to two distinct challenges
`c1 ≠ c2` in `[0, 11)` determine the secret: the extractor
`(s1 - s2) * (c1 - c2)⁻¹` in `ZMod 11` equals `x`, and its value as a natural
number is exactly `x`. -/
theorem special_soundness :
    ∀ x r c1 c2 : Nat, x < 11 → c1 < 11 → c2 < 11 → c1 ≠ c2 →
      extract ((Prover.new demoParams x).step3 r c1)
          ((Prover.new demoParams x).step3 r c2) c1 c2 = (x : ZMod 11) ∧
      (extract ((Prover.new demoParams x).step3 r c1)
          ((Prover.new demoParams x).step3 r c2) c1 c2).val = x := by
  intro x r c1 c2 hx h1 h2 hne
  have hc : (c1 : ZMod 11) - (c2 : ZMod 11) ≠ 0 := by
    refine sub_ne_zero_of_ne ?_
    intro h
    apply hne
    have hv := congrArg ZMod.val h
    rwa [ZMod.val_cast_of_lt h1, ZMod.val_cast_of_lt h2] at hv
  have heq : extract ((Prover.new demoParams x).step3 r c1)
      ((Prover.new demoParams x).step3 r c2) c1 c2 = (x : ZMod 11) := by
    unfold extract
    rw [step3_cast x r c1 hx, step3_cast x r c2 hx]
    field_simp
    ring
  exact ⟨heq, by rw [heq]; exact ZMod.val_cast_of_lt hx⟩

/-- Witness for C4: `x = 6`, `r = 3`, challenges `2 ≠ 9` recover the secret. -/
theorem special_soundness_witness :
    extract ((Prover.new demoParams 6).step3 3 2)
        ((Prover.new demoParams 6).step3 3 9) 2 9 = (6 : ZMod 11) ∧
    (extract ((Prover.new demoParams 6).step3 3 2)
        ((Prover.new demoParams 6).step3 3 9) 2 9).val = 6 :=
  special_soundness 6 3 2 9 (by decide) (by decide) (by decide) (by decide)

/-- The parameter-validation error taxonomy of spec §4.1 / §7. -/
inductive ParamError where
  | NotPrime
  | OrderMismatch
  | DegenerateGenerator
deriving DecidableEq, Repr

/-- Modelled from the spec: the operation `validate(p, q, g)` of §4.1, which
is absent from `src/main.rs` (`PublicParams::new` hardcodes `(23, 11, 4)` and
performs no checks).  Following the spec's words: primality-test `p` and `q`
(`ParamError::NotPrime`); verify `q | (p−1)` (`ParamError::OrderMismatch`);
verify `g^q mod p == 1` and `g^k mod p != 1` for all proper divisors `k` of
`q` (`ParamError::DegenerateGenerator`); otherwise return the validated
parameters. -/
def validate (p q g : Nat) : Except ParamError PublicParams :=
  if ¬ (Nat.Prime p ∧ Nat.Prime q) then .error .NotPrime
  else if ¬ (q ∣ p - 1) then .error .OrderMismatch
  else if ¬ (modpow g q p = 1 ∧ ∀ k < q, k ∣ q → modpow g k p ≠ 1) then
    .error .DegenerateGenerator
  else .ok { p := p, q := q, g := g }

/-- C6: `validate` rejects the known-bad triples: a composite `p` fails with
`ParamError::NotPrime`; prime `p, q` with `q` not dividing `p − 1` fail with
`ParamError::OrderMismatch`; and a generator `g` whose order divides a proper
divisor `k` of `q` (i.e. `g^k mod p = 1` for some `k < q`, `k ∣ q`) fails with
`ParamError::DegenerateGenerator` — so no `PublicParams` value is produced for
such parameters. -/
theorem validate_rejects_bad :
    (∀ p q g : Nat, ¬ Nat.Prime p → validate p q g = .error .NotPrime) ∧
    (∀ p q g : Nat, Nat.Prime p → Nat.Prime q → ¬ q ∣ p - 1 →
        validate p q g = .error .OrderMismatch) ∧
    (∀ p q g k : Nat, Nat.Prime p → Nat.Prime q → q ∣ p - 1 →
        k < q → k ∣ q → modpow g k p = 1 →
          validate p q g = .error .DegenerateGenerator) := by
  refine ⟨?_, ?_, ?_⟩
  · intro p q g hp
    have h : ¬ (Nat.Prime p ∧ Nat.Prime q) := fun h => hp h.1
    simp [validate, h]
  · intro p q g hp hq hdvd
    simp [validate, hp, hq, hdvd]
  · intro p q g k hp hq hdvd hk hdk hpow
    have hbad : ¬ (modpow g q p = 1 ∧ ∀ k' < q, k' ∣ q → modpow g k' p ≠ 1) :=
      fun h => h.2 k hk hdk hpow
    simp [validate, hp, hq, hdvd, hbad]

/-- Witness for C6: `validate 4 11 4` (composite `p`), `validate 23 7 4`
(`7 ∤ 22`) and `validate 23 11 1` (`g = 1` has order dividing the proper
divisor `1` of `11`) are all rejected with the respective errors. -/
theorem validate_rejects_bad_witness :
    validate 4 11 4 = .error .NotPrime ∧
    validate 23 7 4 = .error .OrderMismatch ∧
    validate 23 11 1 = .error .DegenerateGenerator :=
  ⟨validate_rejects_bad.1 4 11 4 (by norm_num),
   validate_rejects_bad.2.1 23 7 4 (by norm_num) (by norm_num) (by decide),
   validate_rejects_bad.2.2 23 11 1 1 (by norm_num) (by norm_num) (by decide)
     (by decide) (by decide) (by decide)⟩
